import Mathlib

/-
  Verification development for the MCP-CAN-Boot flash application
  (src/flash-app.js).  The bootloader dialogue engine is embedded
  shallowly: the session state is an explicit record, the CAN message
  handler is a pure step function from a state and an inbound frame to
  a new state together with a list of observable effects (sent frames,
  log events, file output, process exit).  JavaScript numeric
  behaviour is modelled explicitly: bitwise operators work on 32-bit
  two's complement values, out-of-range buffer reads yield the
  JavaScript undefined value (modelled as Option.none).
-/

namespace McpFlash

/- Command codes, protocol constants and session states, as declared
   at the top of src/flash-app.js. -/

def BOOTLOADER_CMD_VERSION : Nat := 0x01

def CMD_PING : Nat := 0x00

def CMD_BOOTLOADER_START : Nat := 0x02

def CMD_FLASH_INIT : Nat := 0x06

def CMD_FLASH_READY : Nat := 0x04

def CMD_FLASH_SET_ADDRESS : Nat := 0x0A

def CMD_FLASH_ADDRESS_ERROR : Nat := 0x0B

def CMD_FLASH_DATA : Nat := 0x08

def CMD_FLASH_DATA_ERROR : Nat := 0x0D

def CMD_FLASH_DONE : Nat := 0x10

def CMD_FLASH_DONE_VERIFY : Nat := 0x50

def CMD_FLASH_ERASE : Nat := 0x20

def CMD_FLASH_READ : Nat := 0x40

def CMD_FLASH_READ_DATA : Nat := 0x48

def CMD_FLASH_READ_ADDRESS_ERROR : Nat := 0x4B

def CMD_START_APP : Nat := 0x80

def STATE_INIT : Nat := 0

def STATE_FLASHING : Nat := 1

def STATE_READING : Nat := 2

/-- Log events produced by console output of the handler.  Only the
events that carry protocol-relevant information keep their data
(failing address, computed bootloader size). -/
inductive LogMsg where
  | signatureMismatch
  | versionError
  | versionForcedWarn
  | bootloaderSize (blSize : Int)
  | unexpectedAddressError
  | unexpectedCmd
  | flashDataError
  | flashAddressError
  | unexpectedReadAddr
  | verifyFailedAt (addr : Nat)
  | readFailedDuringVerify
  | verifyDone
deriving DecidableEq, Repr

/-- Observable effects of one handler invocation: a CAN frame sent on
the bus, a console log, the finalized read buffer written to the
output file, or a process exit with a code. -/
inductive Out where
  | send (id : Nat) (ext : Bool) (data : List Nat)
  | log (m : LogMsg)
  | writeOutput (buf : List (Option Nat))
  | exit (code : Nat)
deriving DecidableEq, Repr

/-- An inbound CAN frame as delivered by the socketcan listener: CAN
identifier and payload bytes. -/
structure Frame where
  id : Nat
  data : List Nat
deriving DecidableEq, Repr

/-- The mutable session state of the FlashApp instance.  The memory
map is the sparse image: a list of blocks (starting address, bytes) in
ascending key order; memMapKeys is the remaining part of the key
iterator.  readDataArr holds Option Nat because the JavaScript code
can push undefined values read past the end of an 8-byte payload. -/
structure AppState where
  state : Nat
  mcuid : Nat
  canIdMcu : Nat
  canIdRemote : Nat
  sff : Bool
  deviceSignature : List Nat
  deviceFlashSize : Int
  doRead : Bool
  doErase : Bool
  doVerify : Bool
  argsR : Option Nat
  argsF : Bool
  memMap : List (Nat × List Nat)
  memMapKeys : List Nat
  memMapCurrentKey : Option Nat
  memMapCurrentDataIdx : Nat
  curAddr : Nat
  readDataArr : List (Option Nat)
  pingActive : Bool
  exited : Option Nat
deriving DecidableEq, Repr

/-- Reading byte i of a payload where the code relies on the value
being present (indices below 8 of an 8-byte frame). -/
def dByte (d : List Nat) (i : Nat) : Nat := (d.get? i).getD 0

/-- JavaScript ToInt32: wrap an integer into the signed 32-bit range. -/
def js32 (n : Int) : Int := (n + 2 ^ 31) % 2 ^ 32 - 2 ^ 31

/-- One byte of a 32-bit address as produced by the JavaScript
expression (addr >> k) & 0xFF. -/
def addrByte (addr k : Nat) : Nat := addr % 2 ^ 32 / 2 ^ k % 256

/-- High byte of the configured MCU-ID (this.mcuId[0]). -/
def mcuHi (s : AppState) : Nat := (s.mcuid >>> 8) &&& 0xFF

/-- Low byte of the configured MCU-ID (this.mcuId[1]). -/
def mcuLo (s : AppState) : Nat := s.mcuid &&& 0xFF

/-- Byte i of the 3-byte device signature. -/
def sigByte (s : AppState) (i : Nat) : Nat := (s.deviceSignature.get? i).getD 0

/-- MCU-ID decoded from bytes 0..1 of an inbound payload
(msg.data[1] + (msg.data[0] << 8)). -/
def decodeMcuId (d : List Nat) : Nat := dByte d 1 + (dByte d 0 <<< 8)

/-- Remote flash address decoded from bytes 4..7 of a FLASH_READY
frame: msgData[7] + (msgData[6] << 8) + (msgData[5] << 16) +
(msgData[4] << 24); the top shift is a signed 32-bit operation. -/
def decodeRemoteAddr (d : List Nat) : Int :=
  (dByte d 7 : Int) + dByte d 6 * 2 ^ 8 + dByte d 5 * 2 ^ 16 + js32 (dByte d 4 * 2 ^ 24)

/-- FLASHEND_BL decoded from bytes 4..7 of a FLASH_ADDRESS_ERROR
frame: (d4 << 24) | (d5 << 16) | (d6 << 8) | d7 in JavaScript, which
is the signed 32-bit value of the big-endian byte concatenation. -/
def flashendBLOf (d : List Nat) : Int :=
  js32 ((dByte d 4 : Int) * 2 ^ 24 + dByte d 5 * 2 ^ 16 + dByte d 6 * 2 ^ 8 + dByte d 7)

/-- this.memMap.get(key): look a block up by its starting address; a
null key yields undefined. -/
def mget (k : Option Nat) (m : List (Nat × List Nat)) : Option (List Nat) :=
  match k with
  | none => none
  | some a => (m.find? (fun p => p.1 == a)).map Prod.snd

/-- this.memMap.get(this.memMapCurrentKey)[this.memMapCurrentDataIdx + i]. -/
def imageByteAt (s : AppState) (i : Nat) : Option Nat :=
  (mget s.memMapCurrentKey s.memMap).bind fun l => l.get? (s.memMapCurrentDataIdx + i)

/-- The image byte at the current cursor. -/
def imageByte (s : AppState) : Option Nat := imageByteAt s 0

/-- Build an outbound frame: remote CAN-ID, extended format unless sff,
MCU-ID in bytes 0..1, command in byte 2 and the given bytes 3..7. -/
def mkFrame (s : AppState) (cmd b3 b4 b5 b6 b7 : Nat) : Out :=
  Out.send s.canIdRemote (!s.sff) [mcuHi s, mcuLo s, cmd, b3, b4, b5, b6, b7]

/-- sendStartApp(): emit a START_APP frame with zero payload. -/
def startAppOut (s : AppState) : Out := mkFrame s CMD_START_APP 0 0 0 0 0

/-- sendSetFlashAddress(addr): emit FLASH_SET_ADDRESS with the address
big-endian in bytes 4..7. -/
def setFlashAddressOut (s : AppState) (addr : Nat) : Out :=
  mkFrame s CMD_FLASH_SET_ADDRESS 0 (addrByte addr 24) (addrByte addr 16)
    (addrByte addr 8) (addrByte addr 0)

/-- The FLASH_READ request for the current address, as sent in the
read and verify paths. -/
def flashReadOut (s : AppState) : Out :=
  mkFrame s CMD_FLASH_READ 0 (addrByte s.curAddr 24) (addrByte s.curAddr 16)
    (addrByte s.curAddr 8) (addrByte s.curAddr 0)

/-- The data packing loop of onFlashReady: for i in 0..3 take image
bytes until one is undefined, counting them in dataBytes and storing
them in order.  fuel counts the remaining iterations. -/
def packLoop (s : AppState) : Nat → Nat → Nat → List Nat → Nat × List Nat
  | 0, _, n, acc => (n, acc)
  | fuel + 1, i, n, acc =>
    match imageByteAt s i with
    | none => (n, acc)
    | some b => packLoop s fuel (i + 1) (n + 1) (acc ++ [b])

/-- Termination of a write pass in onFlashReady: when verify is
enabled move to STATE_READING and send FLASH_DONE_VERIFY, otherwise
send FLASH_DONE. -/
def flashDonePath (s : AppState) : AppState × List Out :=
  if s.doVerify then
    ({ s with state := STATE_READING }, [mkFrame s CMD_FLASH_DONE_VERIFY 0 0 0 0 0])
  else
    (s, [mkFrame s CMD_FLASH_DONE 0 0 0 0 0])

/-- The tail of onFlashReady once a current image byte exists: compare
the current address with the remote address; on difference send
FLASH_SET_ADDRESS, otherwise pack up to four bytes and send FLASH_DATA
with the length-and-address fragment in byte 3. -/
def flashStep (s : AppState) (remote : Int) : AppState × List Out :=
  if (s.curAddr : Int) ≠ remote then
    (s, [setFlashAddressOut s s.curAddr])
  else
    (s, [Out.send s.canIdRemote (!s.sff)
      ([mcuHi s, mcuLo s, CMD_FLASH_DATA,
        ((packLoop s 4 0 0 []).1 <<< 5) ||| (s.curAddr &&& 31)]
        ++ (packLoop s 4 0 0 []).2
        ++ List.replicate (4 - (packLoop s 4 0 0 []).1) 0)])

/-- onFlashReady(msgData): if the current block is exhausted advance
the key iterator (finishing the pass when no keys remain), then run
the address comparison and data packing step. -/
def onFlashReady (s : AppState) (d : List Nat) : AppState × List Out :=
  if (imageByte s).isNone then
    match s.memMapKeys with
    | [] => flashDonePath s
    | k :: rest =>
      flashStep
        { s with memMapCurrentKey := some k, memMapCurrentDataIdx := 0,
                 curAddr := k, memMapKeys := rest }
        (decodeRemoteAddr d)
  else
    flashStep s (decodeRemoteAddr d)

/-- readForVerify(): when the current block is exhausted advance to
the next key, finishing the verify pass with START_APP when no keys
remain; otherwise request the current address with FLASH_READ. -/
def readForVerify (s : AppState) : AppState × List Out :=
  if (imageByte s).isNone then
    match s.memMapKeys with
    | [] => (s, [Out.log LogMsg.verifyDone, startAppOut s])
    | k :: rest =>
      let s2 : AppState :=
        { s with memMapCurrentKey := some k, memMapCurrentDataIdx := 0,
                 curAddr := k, memMapKeys := rest }
      (s2, [flashReadOut s2])
  else
    (s, [flashReadOut s])

/-- readDone(): write the accumulated read buffer to the output file
and start the application on the MCU. -/
def readDone (s : AppState) : AppState × List Out :=
  (s, [Out.writeOutput s.readDataArr, startAppOut s])

/-- The verify loop over the delivered data bytes: compare each image
byte that is present against msg.data[4+i]; stop with failure flag
true at the first difference, otherwise advance the address and the
block index. -/
def verifyLoop (d : List Nat) : Nat → Nat → AppState → AppState × Bool
  | 0, _, s => (s, false)
  | n + 1, i, s =>
    if (imageByte s).isSome ∧ imageByte s ≠ d.get? (4 + i) then
      (s, true)
    else
      verifyLoop d n (i + 1)
        { s with curAddr := s.curAddr + 1,
                 memMapCurrentDataIdx := s.memMapCurrentDataIdx + 1 }

/-- The read loop over the delivered data bytes: push msg.data[4+i]
(possibly undefined) onto the read buffer and advance the address. -/
def readLoop (d : List Nat) : Nat → Nat → AppState → AppState
  | 0, _, s => s
  | n + 1, i, s =>
    readLoop d n (i + 1)
      { s with readDataArr := s.readDataArr ++ [d.get? (4 + i)],
               curAddr := s.curAddr + 1 }

/-- Continuation after the verify loop: report the failure and start
the app on a mismatch, otherwise request the next verify read. -/
def verifyTail (vr : AppState × Bool) : AppState × List Out :=
  if vr.2 then
    (vr.1, [Out.log (LogMsg.verifyFailedAt vr.1.curAddr), startAppOut vr.1])
  else
    readForVerify vr.1

/-- Continuation after the read loop: finalize when a positive user
read limit has been passed, otherwise request the next address. -/
def readTail (s2 : AppState) : AppState × List Out :=
  match s2.argsR with
  | some r => if 0 < r ∧ r < s2.curAddr then readDone s2 else (s2, [flashReadOut s2])
  | none => (s2, [flashReadOut s2])

/-- The CMD_FLASH_READ_DATA branch of the Reading state.  The first
guard transcribes the mis-parenthesized source condition literally:
in JavaScript precedence the test curAddr and 31 compared unequal to
addrPart parses as curAddr bitand (31 unequal addrPart), the boolean
coercing to 1 or 0. -/
def handleReadData (s : AppState) (d : List Nat) : AppState × List Out :=
  if s.curAddr &&& (if (31 : Nat) ≠ dByte d 3 &&& 31 then 1 else 0) ≠ 0 then
    (s, [Out.log LogMsg.unexpectedReadAddr, startAppOut s])
  else if s.doVerify then
    verifyTail (verifyLoop d (dByte d 3 >>> 5) 0 s)
  else
    readTail (readLoop d (dByte d 3 >>> 5) 0 s)

/-- The STATE_READING command dispatch. -/
def handleReading (s : AppState) (d : List Nat) : AppState × List Out :=
  if dByte d 2 = CMD_FLASH_DONE_VERIFY then
    readForVerify
      { s with memMapKeys := s.memMap.map Prod.fst,
               memMapCurrentKey := none, memMapCurrentDataIdx := 0 }
  else if dByte d 2 = CMD_FLASH_READ_DATA then
    handleReadData s d
  else if dByte d 2 = CMD_FLASH_READ_ADDRESS_ERROR then
    if s.doVerify then
      (s, [Out.log LogMsg.readFailedDuringVerify, startAppOut s])
    else
      readDone s
  else if dByte d 2 = CMD_START_APP then
    ({ s with exited := some 0, pingActive := false }, [Out.exit 0])
  else
    (s, [Out.log LogMsg.unexpectedCmd])

/-- The STATE_FLASHING command dispatch. -/
def handleFlashing (s : AppState) (d : List Nat) : AppState × List Out :=
  if dByte d 2 = CMD_FLASH_DATA_ERROR then
    (s, [Out.log LogMsg.flashDataError])
  else if dByte d 2 = CMD_FLASH_ADDRESS_ERROR then
    (s, [Out.log LogMsg.flashAddressError])
  else if dByte d 2 = CMD_FLASH_READY then
    onFlashReady
      { s with curAddr := s.curAddr + (dByte d 3 >>> 5),
               memMapCurrentDataIdx := s.memMapCurrentDataIdx + (dByte d 3 >>> 5) } d
  else if dByte d 2 = CMD_START_APP then
    ({ s with exited := some 0, pingActive := false }, [Out.exit 0])
  else
    (s, [Out.log LogMsg.unexpectedCmd])

/-- The STATE_INIT command dispatch: bootloader start with signature
and version checks, flash ready with read probe or erase, and the
address error response that reveals FLASHEND_BL in read mode. -/
def handleInit (s : AppState) (d : List Nat) : AppState × List Out :=
  if dByte d 2 = CMD_BOOTLOADER_START then
    if dByte d 4 ≠ sigByte s 0 ∨ dByte d 5 ≠ sigByte s 1 ∨ dByte d 6 ≠ sigByte s 2 then
      (s, [Out.log LogMsg.signatureMismatch])
    else if dByte d 7 ≠ BOOTLOADER_CMD_VERSION ∧ s.argsF = false then
      (s, [Out.log LogMsg.versionError])
    else
      ({ s with pingActive := false },
        (if dByte d 7 ≠ BOOTLOADER_CMD_VERSION then [Out.log LogMsg.versionForcedWarn] else [])
          ++ [mkFrame s CMD_FLASH_INIT 0 (sigByte s 0) (sigByte s 1) (sigByte s 2) 0])
  else if dByte d 2 = CMD_FLASH_READY then
    if s.doRead then
      (s, [setFlashAddressOut s 0xFFFFFFFF])
    else if s.doErase then
      ({ s with doErase := false }, [mkFrame s CMD_FLASH_ERASE 0 0 0 0 0])
    else
      onFlashReady { s with state := STATE_FLASHING } d
  else if dByte d 2 = CMD_FLASH_ADDRESS_ERROR then
    if s.doRead then
      ({ s with state := STATE_READING },
        [Out.log (LogMsg.bootloaderSize (s.deviceFlashSize - (flashendBLOf d + 1))),
         mkFrame s CMD_FLASH_READ 0 0 0 0 0])
    else
      (s, [Out.log LogMsg.unexpectedAddressError])
  else
    (s, [Out.log LogMsg.unexpectedCmd])

/-- handleCanMsg(msg): drop the frame unless the payload has exactly 8
bytes, the CAN-ID is the configured mcu-to-remote id and bytes 0..1
carry the configured MCU-ID; then dispatch on the session state.  A
state with exited set models the terminated process, which handles
nothing. -/
def handleCanMsg (s : AppState) (msg : Frame) : AppState × List Out :=
  if s.exited.isSome then (s, [])
  else if msg.data.length ≠ 8 then (s, [])
  else if msg.id ≠ s.canIdMcu then (s, [])
  else if decodeMcuId msg.data ≠ s.mcuid then (s, [])
  else if s.state = STATE_INIT then handleInit s msg.data
  else if s.state = STATE_FLASHING then handleFlashing s msg.data
  else if s.state = STATE_READING then handleReading s msg.data
  else (s, [])

/-- One tick of the keep-alive interval: a PING frame is emitted while
the interval is installed and the process is alive. -/
def pingTick (s : AppState) : List Out :=
  if s.exited = none ∧ s.pingActive then [mkFrame s CMD_PING 0 0 0 0 0] else []

/- Derived notions used to state the claims. -/

/-- The maximal run of defined values of f at i, i+1, ... of length at
most n. -/
def takeDefined (f : Nat → Option Nat) : Nat → Nat → List Nat
  | 0, _ => []
  | n + 1, i =>
    match f i with
    | none => []
    | some b => b :: takeDefined f n (i + 1)

/-- The image bytes the packing loop of onFlashReady picks up: the
defined prefix of length at most 4 at the current cursor. -/
def chunkBytes (s : AppState) : List Nat := takeDefined (imageByteAt s) 4 0

/-- The block-advance part of onFlashReady in isolation: the state on
which the address comparison and the packing run. -/
def advState (s : AppState) : AppState :=
  if (imageByte s).isNone then
    match s.memMapKeys with
    | [] => s
    | k :: rest =>
      { s with memMapCurrentKey := some k, memMapCurrentDataIdx := 0,
               curAddr := k, memMapKeys := rest }
  else s

/-- There is a next write chunk: either the current block still has a
byte at the cursor or another block remains in the key iterator. -/
def hasNextChunk (s : AppState) : Prop :=
  (imageByte s).isSome = true ∨ s.memMapKeys ≠ []

instance (s : AppState) : Decidable (hasNextChunk s) := by
  unfold hasNextChunk
  infer_instance

/-- Recognize an emitted FLASH_DATA frame by its command byte. -/
def isFlashDataOut : Out → Bool
  | Out.send _ _ d => d.get? 2 == some CMD_FLASH_DATA
  | _ => false

/-- The sequence of payload values msg.data[4+i] pushed by the read
loop for i in 0..n-1. -/
def readSeg (d : List Nat) : Nat → Nat → List (Option Nat)
  | 0, _ => []
  | n + 1, i => d.get? (4 + i) :: readSeg d n (i + 1)

/- Concrete sessions used by the claim checks: MCU-ID 0x0042, default
CAN-IDs, part m328p (signature 1E 95 0F, 32 KiB flash). -/

def baseState : AppState :=
  { state := STATE_READING, mcuid := 0x0042, canIdMcu := 0x1FFFFF01, canIdRemote := 0x1FFFFF02,
    sff := false, deviceSignature := [0x1E, 0x95, 0x0F], deviceFlashSize := 32768,
    doRead := true, doErase := false, doVerify := false, argsR := none, argsF := false,
    memMap := [], memMapKeys := [], memMapCurrentKey := none, memMapCurrentDataIdx := 0,
    curAddr := 0, readDataArr := [], pingActive := false, exited := none }

/-- A FLASH_READ_DATA frame with byte count 2 and address part 5 while
the session address is 0: the low five address bits disagree. -/
def c1Frame : Frame := ⟨0x1FFFFF01, [0x00, 0x42, 0x48, 0x45, 0xAA, 0xBB, 0x00, 0x00]⟩

def c3State : AppState :=
  { baseState with doRead := false, doVerify := true, memMap := [(0, [0xAA, 0xBB, 0xCC, 0xDD])], memMapCurrentKey := some 0 }

/-- Verify read-back whose first byte is 0xAB where the image has 0xAA. -/
def c3Frame1 : Frame := ⟨0x1FFFFF01, [0x00, 0x42, 0x48, 0x80, 0xAB, 0xBB, 0xCC, 0xDD]⟩

/-- The START_APP echo of the target. -/
def c3Frame2 : Frame := ⟨0x1FFFFF01, [0x00, 0x42, 0x80, 0x00, 0x00, 0x00, 0x00, 0x00]⟩

/-- Read session with user read limit 5. -/
def c6State : AppState := { baseState with argsR := some 5 }

def c6Frame1 : Frame := ⟨0x1FFFFF01, [0x00, 0x42, 0x48, 0x80, 1, 2, 3, 4]⟩

def c6Frame2 : Frame := ⟨0x1FFFFF01, [0x00, 0x42, 0x48, 0x84, 5, 6, 7, 8]⟩

/-- Init-state write session with an active pinger and a one-byte image. -/
def c9State : AppState :=
  { baseState with state := STATE_INIT, doRead := false, pingActive := true, memMap := [(0, [0xAA])], memMapKeys := [0] }

/-- A FLASH_READY frame arriving in Init without a prior BOOTLOADER_START. -/
def c9Frame : Frame := ⟨0x1FFFFF01, [0x00, 0x42, 0x04, 0x00, 0x00, 0x00, 0x00, 0x00]⟩

/-- A FLASH_READ_DATA frame whose fragment byte 0xC0 declares byte
count 6, larger than the 4 data bytes an 8-byte frame can carry. -/
def c10Frame : Frame := ⟨0x1FFFFF01, [0x00, 0x42, 0x48, 0xC0, 9, 8, 7, 6]⟩

/-- A short frame on an unrelated CAN-ID. -/
def c5Frame : Frame := ⟨0x123, [1, 2, 3]⟩

/-- Init-state read session awaiting the bootloader boundary probe
response (scenario S4 of the spec). -/
def c7State : AppState := { baseState with state := STATE_INIT }

/-- FLASH_ADDRESS_ERROR response carrying FLASHEND_BL 0x77FF. -/
def c7Frame : Frame := ⟨0x1FFFFF01, [0x00, 0x42, 0x0B, 0x00, 0x00, 0x00, 0x77, 0xFF]⟩

/-- Init-state write session. -/
def c8State : AppState := { baseState with state := STATE_INIT, doRead := false }

/-- BOOTLOADER_START with the m328p signature but protocol version 0x02. -/
def c8Frame : Frame := ⟨0x1FFFFF01, [0x00, 0x42, 0x02, 0x00, 0x1E, 0x95, 0x0F, 0x02]⟩

/-- Flashing-state session (scenario S3): the next block starts at
0x100 while the target reports remote address 4. -/
def c2State : AppState :=
  { baseState with state := STATE_FLASHING, doRead := false, memMap := [(0x100, [0x05])], memMapKeys := [0x100] }

/-- FLASH_READY payload reporting remote address 0x00000004. -/
def c2Data : List Nat := [0x00, 0x42, 0x04, 0x80, 0, 0, 0, 4]

/-- Flashing-state session with a five-byte block at address 0. -/
def c4State : AppState :=
  { baseState with state := STATE_FLASHING, doRead := false, memMap := [(0, [0xAA, 0xBB, 0xCC, 0xDD, 0xEE])], memMapKeys := [0] }

/-- FLASH_READY payload reporting remote address 0. -/
def c4Data : List Nat := [0x00, 0x42, 0x04, 0x00, 0, 0, 0, 0]

/-- The FLASH_DATA payload emitted for c4State: four bytes packed,
fragment byte 0x80. -/
def c4Bytes : List Nat := [0x00, 0x42, 0x08, 0x80, 0xAA, 0xBB, 0xCC, 0xDD]

/-- Read session with user read limit 3: a 4-byte delivery lands
exactly on limit + 1. -/
def c6wState : AppState := { baseState with argsR := some 3 }

def c6wFrame : Frame := ⟨0x1FFFFF01, [0x00, 0x42, 0x48, 0x80, 1, 2, 3, 4]⟩

/-- A Flashing-state session with the pinger already canceled. -/
def c9wState : AppState := { baseState with state := STATE_FLASHING, doRead := false }

/- Supporting lemmas about the loops of the handler. -/

lemma takeDefined_length_le (f : Nat → Option Nat) : ∀ (n i : Nat), (takeDefined f n i).length ≤ n := by
  intro n
  induction n with
  | zero => intro i; simp [takeDefined]
  | succ k ih =>
    intro i
    cases h : f i with
    | none => simp [takeDefined, h]
    | some b =>
      simp only [takeDefined, h, List.length_cons]
      exact Nat.succ_le_succ (ih (i + 1))

lemma packLoop_eq (s : AppState) : ∀ (fuel i n : Nat) (acc : List Nat),
    packLoop s fuel i n acc
      = (n + (takeDefined (imageByteAt s) fuel i).length,
         acc ++ takeDefined (imageByteAt s) fuel i) := by
  intro fuel
  induction fuel with
  | zero => intro i n acc; simp [packLoop, takeDefined]
  | succ k ih =>
    intro i n acc
    cases h : imageByteAt s i with
    | none => simp [packLoop, takeDefined, h]
    | some b =>
      simp only [packLoop, takeDefined, h, ih, List.length_cons, List.append_assoc,
        List.singleton_append, List.cons_append, Prod.mk.injEq]
      constructor
      · omega
      · rfl

lemma onFlashReady_advance (s : AppState) (d : List Nat) (h : hasNextChunk s) :
    onFlashReady s d = flashStep (advState s) (decodeRemoteAddr d) := by
  cases him : imageByte s with
  | none =>
    cases hk : s.memMapKeys with
    | nil =>
      exfalso
      rcases h with h | h
      · rw [him] at h; simp at h
      · exact h hk
    | cons k rest => simp [onFlashReady, advState, him, hk]
  | some b => simp [onFlashReady, advState, him]

lemma onFlashReady_done (s : AppState) (d : List Nat)
    (h1 : imageByte s = none) (h2 : s.memMapKeys = []) :
    onFlashReady s d = flashDonePath s := by
  simp [onFlashReady, h1, h2]

lemma readSeg_length (d : List Nat) : ∀ (n i : Nat), (readSeg d n i).length = n := by
  intro n
  induction n with
  | zero => intro i; simp [readSeg]
  | succ k ih => intro i; simp [readSeg, ih]

lemma readLoop_readDataArr (d : List Nat) : ∀ (n i : Nat) (s : AppState),
    (readLoop d n i s).readDataArr = s.readDataArr ++ readSeg d n i := by
  intro n
  induction n with
  | zero => intro i s; simp [readLoop, readSeg]
  | succ k ih => intro i s; simp [readLoop, readSeg, ih]

lemma readLoop_curAddr (d : List Nat) : ∀ (n i : Nat) (s : AppState),
    (readLoop d n i s).curAddr = s.curAddr + n := by
  intro n
  induction n with
  | zero => intro i s; simp [readLoop]
  | succ k ih => intro i s; simp [readLoop, ih]; omega

lemma readLoop_argsR (d : List Nat) : ∀ (n i : Nat) (s : AppState),
    (readLoop d n i s).argsR = s.argsR := by
  intro n
  induction n with
  | zero => intro i s; simp [readLoop]
  | succ k ih => intro i s; simp [readLoop, ih]

lemma readLoop_pingActive (d : List Nat) : ∀ (n i : Nat) (s : AppState),
    (readLoop d n i s).pingActive = s.pingActive := by
  intro n
  induction n with
  | zero => intro i s; simp [readLoop]
  | succ k ih => intro i s; simp [readLoop, ih]

lemma verifyLoop_pingActive (d : List Nat) : ∀ (n i : Nat) (s : AppState),
    (verifyLoop d n i s).1.pingActive = s.pingActive := by
  intro n
  induction n with
  | zero => intro i s; simp [verifyLoop]
  | succ k ih =>
    intro i s
    simp only [verifyLoop]
    split
    · rfl
    · exact ih (i + 1) _

lemma flashStep_pingActive (s : AppState) (r : Int) :
    (flashStep s r).1.pingActive = s.pingActive := by
  unfold flashStep
  split <;> rfl

lemma flashDonePath_pingActive (s : AppState) :
    (flashDonePath s).1.pingActive = s.pingActive := by
  unfold flashDonePath
  split <;> rfl

lemma onFlashReady_pingActive (s : AppState) (d : List Nat) :
    (onFlashReady s d).1.pingActive = s.pingActive := by
  unfold onFlashReady
  split
  · cases hk : s.memMapKeys with
    | nil => simp [flashDonePath_pingActive]
    | cons k rest => simp [flashStep_pingActive]
  · simp [flashStep_pingActive]

lemma readForVerify_pingActive (s : AppState) :
    (readForVerify s).1.pingActive = s.pingActive := by
  unfold readForVerify
  split
  · cases hk : s.memMapKeys with
    | nil => rfl
    | cons k rest => rfl
  · rfl

lemma verifyTail_pingActive (vr : AppState × Bool) :
    (verifyTail vr).1.pingActive = vr.1.pingActive := by
  unfold verifyTail
  split
  · rfl
  · exact readForVerify_pingActive _

lemma readTail_pingActive (s2 : AppState) :
    (readTail s2).1.pingActive = s2.pingActive := by
  unfold readTail
  split
  · split
    · rfl
    · rfl
  · rfl

lemma handleReadData_pingActive (s : AppState) (d : List Nat) :
    (handleReadData s d).1.pingActive = s.pingActive := by
  unfold handleReadData
  split
  all_goals
    split
    · rfl
    · split
      · rw [verifyTail_pingActive, verifyLoop_pingActive]
      · rw [readTail_pingActive, readLoop_pingActive]

lemma handleInit_pingFalse (s : AppState) (d : List Nat) (h : s.pingActive = false) :
    (handleInit s d).1.pingActive = false := by
  unfold handleInit
  split
  · split
    · exact h
    · split
      · exact h
      · rfl
  · split
    · split
      · exact h
      · split
        · exact h
        · rw [onFlashReady_pingActive]; exact h
    · split
      · split
        · exact h
        · exact h
      · exact h

lemma handleFlashing_pingFalse (s : AppState) (d : List Nat) (h : s.pingActive = false) :
    (handleFlashing s d).1.pingActive = false := by
  unfold handleFlashing
  split
  · exact h
  · split
    · exact h
    · split
      · rw [onFlashReady_pingActive]; exact h
      · split
        · rfl
        · exact h

lemma handleReading_pingFalse (s : AppState) (d : List Nat) (h : s.pingActive = false) :
    (handleReading s d).1.pingActive = false := by
  unfold handleReading
  split
  · rw [readForVerify_pingActive]; exact h
  · split
    · rw [handleReadData_pingActive]; exact h
    · split
      · split
        · exact h
        · simp [readDone]; exact h
      · split
        · rfl
        · exact h

/- Claim theorems. -/

/-- Claim C1: the spec requires that in the Reading state a
FLASH_READ_DATA frame whose low-5-bit address part differs from the
low 5 bits of the current address aborts the session with START_APP.
The source condition is mis-parenthesized (the inequality binds before
the bitand), so the check is ineffective: here the frame carries
address part 5 while the current address is 0, yet the handler
consumes both data bytes into the read buffer, emits no START_APP and
simply requests the next read. -/
theorem c1_read_addr_mismatch_not_aborted :
    (dByte c1Frame.data 3 &&& 31 ≠ baseState.curAddr &&& 31) ∧
    (handleCanMsg baseState c1Frame).1.readDataArr = [some 0xAA, some 0xBB] ∧
    (handleCanMsg baseState c1Frame).1.curAddr = 2 ∧
    (handleCanMsg baseState c1Frame).1.exited = none ∧
    (handleCanMsg baseState c1Frame).2 = [flashReadOut (handleCanMsg baseState c1Frame).1] ∧
    startAppOut baseState ∉ (handleCanMsg baseState c1Frame).2 := by decide

/-- Claim C3: the spec requires a nonzero exit code for every session
ending in a fatal error, in particular a verify mismatch.  In the
source a verify mismatch only logs the failing address and emits
START_APP; when the target echoes START_APP the handler exits with
code 0, so the fatal verify-mismatch session terminates with exit
code 0. -/
theorem c3_verify_mismatch_exit_code_zero :
    (Out.log (LogMsg.verifyFailedAt 0) ∈ (handleCanMsg c3State c3Frame1).2) ∧
    (startAppOut c3State ∈ (handleCanMsg c3State c3Frame1).2) ∧
    ((handleCanMsg c3State c3Frame1).1.exited = none) ∧
    ((handleCanMsg (handleCanMsg c3State c3Frame1).1 c3Frame2).1.exited = some 0) ∧
    (Out.exit 0 ∈ (handleCanMsg (handleCanMsg c3State c3Frame1).1 c3Frame2).2) := by decide

/-- Claim C6 counterexample: with read limit 5 and a target that
delivers 4 bytes per frame and never sends FLASH_READ_ADDRESS_ERROR,
the finalized buffer holds 8 bytes, not the 5 + 1 the claim requires:
the loop only stops at the first frame after which the address exceeds
the limit. -/
theorem c6_counterexample :
    ((handleCanMsg c6State c6Frame1).2 = [flashReadOut (handleCanMsg c6State c6Frame1).1]) ∧
    ((handleCanMsg (handleCanMsg c6State c6Frame1).1 c6Frame2).2
      = [Out.writeOutput [some 1, some 2, some 3, some 4, some 5, some 6, some 7, some 8],
         startAppOut (handleCanMsg (handleCanMsg c6State c6Frame1).1 c6Frame2).1]) ∧
    (c6State.argsR = some 5) ∧
    ([some 1, some 2, some 3, some 4, some 5, some 6, some 7, some 8].length
      ≠ 5 + 1) := by decide

/-- Claim C9 counterexample: a FLASH_READY frame received in Init
without a prior BOOTLOADER_START moves the session to Flashing while
the keep-alive interval is still installed, and the next tick emits a
PING after the transition out of Init. -/
theorem c9_counterexample :
    c9State.state = STATE_INIT ∧ c9State.pingActive = true ∧
    (handleCanMsg c9State c9Frame).1.state = STATE_FLASHING ∧
    (handleCanMsg c9State c9Frame).1.pingActive = true ∧
    pingTick (handleCanMsg c9State c9Frame).1
      = [mkFrame (handleCanMsg c9State c9Frame).1 CMD_PING 0 0 0 0 0] := by decide

/-- Claim C10: the handler does not validate the byte count decoded
from bits 7..5 of the fragment byte.  A FLASH_READ_DATA frame with
byte count 6 makes the read loop index past the 8-byte payload: the
buffer receives the four real bytes followed by two undefined values,
and the current address advances by the full 6. -/
theorem c10_byte_count_unvalidated :
    (dByte c10Frame.data 3 >>> 5 = 6) ∧ (c10Frame.data.length = 8) ∧ (4 < 6) ∧
    (handleCanMsg baseState c10Frame).1.readDataArr
      = [some 9, some 8, some 7, some 6, none, none] ∧
    (handleCanMsg baseState c10Frame).1.curAddr = 6 := by decide

/-- Claim C5: in every state, an inbound frame whose payload is not
exactly 8 bytes, or whose CAN-ID is not the configured mcu-to-remote
CAN-ID, or whose bytes 0..1 do not carry the configured MCU-ID, is
dropped: the state (with all cursors) is returned unchanged and no
effect is produced. -/
theorem c5_filtered_frame_no_effect (s : AppState) (msg : Frame)
    (h : msg.data.length ≠ 8 ∨ msg.id ≠ s.canIdMcu ∨ decodeMcuId msg.data ≠ s.mcuid) :
    handleCanMsg s msg = (s, []) := by
  unfold handleCanMsg
  rcases h with h | h | h <;> simp [h]

/-- Witness for C5: a 3-byte frame on a foreign CAN-ID is dropped. -/
theorem c5_witness : handleCanMsg baseState c5Frame = (baseState, []) :=
  c5_filtered_frame_no_effect baseState c5Frame (Or.inl (by decide))

/-- Claim C7: FLASH_ADDRESS_ERROR received in Init while in read mode
decodes FLASHEND_BL as the 32-bit big-endian integer in bytes 4..7,
reports bootloader_size = flash_size - (FLASHEND_BL + 1) (with
program_size = FLASHEND_BL + 1), transitions to Reading and emits a
FLASH_READ frame whose four address bytes are all zero. -/
theorem c7_flash_address_error_read_probe (s : AppState) (msg : Frame)
    (hex : s.exited = none) (hlen : msg.data.length = 8)
    (hid : msg.id = s.canIdMcu) (hmcu : decodeMcuId msg.data = s.mcuid)
    (hst : s.state = STATE_INIT) (hcmd : dByte msg.data 2 = CMD_FLASH_ADDRESS_ERROR)
    (hrd : s.doRead = true) :
    handleCanMsg s msg
      = ({ s with state := STATE_READING },
         [Out.log (LogMsg.bootloaderSize (s.deviceFlashSize -
            (js32 ((dByte msg.data 4 : Int) * 2 ^ 24 + dByte msg.data 5 * 2 ^ 16
              + dByte msg.data 6 * 2 ^ 8 + dByte msg.data 7) + 1))),
          Out.send s.canIdRemote (!s.sff)
            [mcuHi s, mcuLo s, CMD_FLASH_READ, 0, 0, 0, 0, 0]]) := by
  unfold handleCanMsg handleInit
  simp [hex, hlen, hid, hmcu, hst, hcmd, hrd, flashendBLOf, mkFrame,
    CMD_FLASH_ADDRESS_ERROR, CMD_BOOTLOADER_START, CMD_FLASH_READY, STATE_INIT]

/-- Witness for C7, scenario S4: FLASHEND_BL 0x77FF on a 32 KiB part
gives program size 0x7800 and bootloader size 0x800 = 2048, state
Reading, and a FLASH_READ with zero address. -/
theorem c7_witness :
    handleCanMsg c7State c7Frame
      = ({ c7State with state := STATE_READING },
         [Out.log (LogMsg.bootloaderSize 2048),
          Out.send 0x1FFFFF02 true [0x00, 0x42, 0x40, 0, 0, 0, 0, 0]]) :=
  (c7_flash_address_error_read_probe c7State c7Frame rfl (by decide) (by decide)
    (by decide) rfl (by decide) rfl).trans (by decide)

/-- Claim C8: a BOOTLOADER_START frame in Init with matching signature
but a protocol-version byte different from 0x01 is rejected when the
force flag is clear (an error is reported, the state stays Init and no
FLASH_INIT is sent), and accepted with a warning followed by
FLASH_INIT when the force flag is set. -/
theorem c8_version_mismatch_handling (s : AppState) (msg : Frame)
    (hex : s.exited = none) (hlen : msg.data.length = 8)
    (hid : msg.id = s.canIdMcu) (hmcu : decodeMcuId msg.data = s.mcuid)
    (hst : s.state = STATE_INIT) (hcmd : dByte msg.data 2 = CMD_BOOTLOADER_START)
    (h4 : dByte msg.data 4 = sigByte s 0) (h5 : dByte msg.data 5 = sigByte s 1)
    (h6 : dByte msg.data 6 = sigByte s 2)
    (h7 : dByte msg.data 7 ≠ BOOTLOADER_CMD_VERSION) :
    (s.argsF = false →
       handleCanMsg s msg = (s, [Out.log LogMsg.versionError])) ∧
    (s.argsF = true →
       handleCanMsg s msg
         = ({ s with pingActive := false },
            [Out.log LogMsg.versionForcedWarn,
             mkFrame s CMD_FLASH_INIT 0 (sigByte s 0) (sigByte s 1) (sigByte s 2) 0])) := by
  constructor <;> intro hF <;>
    (unfold handleCanMsg handleInit
     simp [hex, hlen, hid, hmcu, hst, hcmd, h4, h5, h6, h7, hF])

/-- Witness for C8, scenario S5: version byte 0x02 without force is
rejected with an error and no FLASH_INIT. -/
theorem c8_witness :
    handleCanMsg c8State c8Frame = (c8State, [Out.log LogMsg.versionError]) :=
  (c8_version_mismatch_handling c8State c8Frame rfl (by decide) (by decide)
    (by decide) rfl (by decide) (by decide) (by decide) (by decide) (by decide)).1 rfl

/-- Claim C2: in the write step triggered by FLASH_READY, a FLASH_DATA
frame is emitted only when the current chunk address equals the remote
address decoded from bytes 4..7, and whenever a next chunk exists but
its address differs from the remote address the step emits exactly one
FLASH_SET_ADDRESS frame carrying the current address and no
FLASH_DATA. -/
theorem c2_set_address_gates_flash_data (s : AppState) (d : List Nat) :
    (∀ o ∈ (onFlashReady s d).2, isFlashDataOut o = true →
        ((advState s).curAddr : Int) = decodeRemoteAddr d) ∧
    (hasNextChunk s → ((advState s).curAddr : Int) ≠ decodeRemoteAddr d →
        (onFlashReady s d).2 = [setFlashAddressOut (advState s) (advState s).curAddr] ∧
        ∀ o ∈ (onFlashReady s d).2, isFlashDataOut o = false) := by
  by_cases h : hasNextChunk s
  · rw [onFlashReady_advance s d h]
    unfold flashStep
    by_cases ha : ((advState s).curAddr : Int) = decodeRemoteAddr d
    · rw [if_neg (not_not_intro ha)]
      simp [ha, isFlashDataOut]
    · rw [if_pos ha]
      simp [ha, isFlashDataOut, setFlashAddressOut, mkFrame,
        CMD_FLASH_SET_ADDRESS, CMD_FLASH_DATA]
  · have h' := h
    unfold hasNextChunk at h'
    push_neg at h'
    rw [onFlashReady_done s d (Option.not_isSome_iff_eq_none.mp h'.1) h'.2]
    unfold flashDonePath
    constructor
    · intro o ho hf
      exfalso
      revert hf
      split at ho <;>
        simp_all [isFlashDataOut, mkFrame, CMD_FLASH_DONE_VERIFY, CMD_FLASH_DONE,
          CMD_FLASH_DATA]
    · intro hn
      exact absurd hn h

/-- Witness for C2, scenario S3: the chunk at 0x100 differs from the
reported remote address 4, so the step emits exactly the
FLASH_SET_ADDRESS frame for 0x100. -/
theorem c2_witness :
    hasNextChunk c2State ∧
    ((advState c2State).curAddr : Int) ≠ decodeRemoteAddr c2Data ∧
    (onFlashReady c2State c2Data).2
      = [setFlashAddressOut (advState c2State) (advState c2State).curAddr] :=
  ⟨by decide, by decide,
    ((c2_set_address_gates_flash_data c2State c2Data).2 (by decide) (by decide)).1⟩

/-- Claim C4: every FLASH_DATA frame emitted by the write step has a
fragment byte equal to (n shifted left by 5) or-ed with the low 5 bits
of the current address, where n, at most 4, is exactly the number of
image bytes packed into bytes 4..7; the remaining payload bytes stay
zero. -/
theorem c4_flash_data_fragment_encoding (s : AppState) (d : List Nat)
    (cid : Nat) (ext : Bool) (bytes : List Nat)
    (hmem : Out.send cid ext bytes ∈ (onFlashReady s d).2)
    (hcmd : bytes.get? 2 = some CMD_FLASH_DATA) :
    (chunkBytes (advState s)).length ≤ 4 ∧
    bytes.get? 3 = some (((chunkBytes (advState s)).length <<< 5)
        ||| ((advState s).curAddr &&& 31)) ∧
    bytes.drop 4 = chunkBytes (advState s)
        ++ List.replicate (4 - (chunkBytes (advState s)).length) 0 := by
  refine ⟨takeDefined_length_le _ 4 0, ?_⟩
  by_cases h : hasNextChunk s
  · rw [onFlashReady_advance s d h] at hmem
    unfold flashStep at hmem
    by_cases ha : ((advState s).curAddr : Int) = decodeRemoteAddr d
    · rw [if_neg (not_not_intro ha)] at hmem
      rw [List.mem_singleton, Out.send.injEq] at hmem
      obtain ⟨-, -, hb⟩ := hmem
      subst hb
      rw [packLoop_eq] at hcmd ⊢
      simp [chunkBytes]
    · rw [if_pos ha] at hmem
      rw [List.mem_singleton] at hmem
      simp only [setFlashAddressOut, mkFrame, Out.send.injEq] at hmem
      obtain ⟨-, -, hb⟩ := hmem
      subst hb
      simp [CMD_FLASH_SET_ADDRESS, CMD_FLASH_DATA] at hcmd
  · have h' := h
    unfold hasNextChunk at h'
    push_neg at h'
    rw [onFlashReady_done s d (Option.not_isSome_iff_eq_none.mp h'.1) h'.2]
      at hmem
    unfold flashDonePath at hmem
    split at hmem <;>
    · rw [List.mem_singleton] at hmem
      simp only [mkFrame, Out.send.injEq] at hmem
      obtain ⟨-, -, hb⟩ := hmem
      subst hb
      simp [CMD_FLASH_DONE_VERIFY, CMD_FLASH_DONE, CMD_FLASH_DATA] at hcmd

/-- Witness for C4: in the c4State step the emitted FLASH_DATA frame
carries fragment byte 0x80 (4 bytes, address low bits 0) and the four
packed image bytes. -/
theorem c4_witness :
    (chunkBytes (advState c4State)).length ≤ 4 ∧
    c4Bytes.get? 3 = some (((chunkBytes (advState c4State)).length <<< 5)
        ||| ((advState c4State).curAddr &&& 31)) ∧
    c4Bytes.drop 4 = chunkBytes (advState c4State)
        ++ List.replicate (4 - (chunkBytes (advState c4State)).length) 0 :=
  c4_flash_data_fragment_encoding c4State c4Data 0x1FFFFF02 true c4Bytes
    (by decide) (by decide)

/-- Claim C6 amended: in whole-flash read mode with a positive user
limit r, the buffer grows by the delivered byte count on every
FLASH_READ_DATA frame; the session finalizes exactly when the new
current address exceeds r, and the finalized buffer then holds exactly
current address many bytes, which is at least r + 1 (it equals r + 1
only when a frame boundary lands there); below the limit the handler
just requests the next address. -/
theorem c6_read_limit_finalization (s : AppState) (msg : Frame) (r : Nat)
    (hex : s.exited = none) (hlen : msg.data.length = 8)
    (hid : msg.id = s.canIdMcu) (hmcu : decodeMcuId msg.data = s.mcuid)
    (hst : s.state = STATE_READING)
    (hcmd : dByte msg.data 2 = CMD_FLASH_READ_DATA)
    (hnv : s.doVerify = false)
    (hguard : s.curAddr &&& (if (31 : Nat) ≠ dByte msg.data 3 &&& 31 then 1 else 0) = 0)
    (hr : s.argsR = some r) (hrpos : 0 < r)
    (hinv : s.readDataArr.length = s.curAddr) :
    ((handleCanMsg s msg).1.readDataArr.length
      = s.curAddr + (dByte msg.data 3 >>> 5)) ∧
    (r < s.curAddr + (dByte msg.data 3 >>> 5) →
       (handleCanMsg s msg).2
         = [Out.writeOutput (handleCanMsg s msg).1.readDataArr,
            startAppOut (handleCanMsg s msg).1] ∧
       r + 1 ≤ (handleCanMsg s msg).1.readDataArr.length) ∧
    (s.curAddr + (dByte msg.data 3 >>> 5) ≤ r →
       (handleCanMsg s msg).2 = [flashReadOut (handleCanMsg s msg).1]) := by
  have hstep : handleCanMsg s msg
      = readTail (readLoop msg.data (dByte msg.data 3 >>> 5) 0 s) := by
    unfold handleCanMsg handleReading handleReadData
    simp [hex, hlen, hid, hmcu, hst, hcmd, hnv, STATE_INIT, STATE_FLASHING,
      STATE_READING, CMD_FLASH_DONE_VERIFY, CMD_FLASH_READ_DATA]
    intro hc
    exact absurd (by simpa using hguard) hc
  have hs2len : (readLoop msg.data (dByte msg.data 3 >>> 5) 0 s).readDataArr.length
      = s.curAddr + (dByte msg.data 3 >>> 5) := by
    rw [readLoop_readDataArr, List.length_append, readSeg_length, hinv]
  have hs2addr : (readLoop msg.data (dByte msg.data 3 >>> 5) 0 s).curAddr
      = s.curAddr + (dByte msg.data 3 >>> 5) := readLoop_curAddr _ _ _ _
  have hs2r : (readLoop msg.data (dByte msg.data 3 >>> 5) 0 s).argsR = some r := by
    rw [readLoop_argsR]; exact hr
  have htail : handleCanMsg s msg
      = if 0 < r ∧ r < (readLoop msg.data (dByte msg.data 3 >>> 5) 0 s).curAddr
        then readDone (readLoop msg.data (dByte msg.data 3 >>> 5) 0 s)
        else (readLoop msg.data (dByte msg.data 3 >>> 5) 0 s,
              [flashReadOut (readLoop msg.data (dByte msg.data 3 >>> 5) 0 s)]) := by
    rw [hstep]
    simp only [readTail, hs2r]
  rw [hs2addr] at htail
  refine ⟨?_, ?_, ?_⟩
  · by_cases hlt : r < s.curAddr + (dByte msg.data 3 >>> 5)
    · rw [htail, if_pos ⟨hrpos, hlt⟩]
      simpa [readDone] using hs2len
    · rw [htail, if_neg (fun hc => hlt hc.2)]
      exact hs2len
  · intro hlt
    rw [htail, if_pos ⟨hrpos, hlt⟩]
    refine ⟨rfl, ?_⟩
    simp only [readDone]
    rw [hs2len]
    omega
  · intro hle
    rw [htail, if_neg (fun hc => absurd hc.2 (by omega))]

/-- Witness for C6 amended: limit 3, one 4-byte delivery: the session
finalizes with a buffer of 4 = 3 + 1 bytes. -/
theorem c6_witness :
    ((handleCanMsg c6wState c6wFrame).1.readDataArr.length
      = c6wState.curAddr + (dByte c6wFrame.data 3 >>> 5)) ∧
    ((handleCanMsg c6wState c6wFrame).2
      = [Out.writeOutput (handleCanMsg c6wState c6wFrame).1.readDataArr,
         startAppOut (handleCanMsg c6wState c6wFrame).1]) ∧
    (3 + 1 ≤ (handleCanMsg c6wState c6wFrame).1.readDataArr.length) := by
  have h := c6_read_limit_finalization c6wState c6wFrame 3 (by decide) (by decide)
    (by decide) (by decide) (by decide) (by decide) (by decide) (by decide) (by decide)
    (by decide) (by decide)
  have h2 := h.2.1 (by decide)
  exact ⟨h.1, h2.1, h2.2⟩

/-- Claim C9 amended: the pinger is canceled when a valid
BOOTLOADER_START is accepted, while the session is still in Init (not
on the transition to Flashing or Reading itself); once the pinger is
inactive no handler reactivates it and no further tick emits a PING.
A transition triggered without a prior accepted BOOTLOADER_START
leaves the pinger running (see the counterexample). -/
theorem c9_pinger_cancellation :
    (∀ (s : AppState) (msg : Frame),
        s.exited = none → msg.data.length = 8 → msg.id = s.canIdMcu →
        decodeMcuId msg.data = s.mcuid → s.state = STATE_INIT →
        dByte msg.data 2 = CMD_BOOTLOADER_START →
        dByte msg.data 4 = sigByte s 0 → dByte msg.data 5 = sigByte s 1 →
        dByte msg.data 6 = sigByte s 2 →
        (dByte msg.data 7 = BOOTLOADER_CMD_VERSION ∨ s.argsF = true) →
        (handleCanMsg s msg).1.pingActive = false) ∧
    (∀ (s : AppState) (msg : Frame), s.pingActive = false →
        (handleCanMsg s msg).1.pingActive = false ∧
        pingTick (handleCanMsg s msg).1 = []) := by
  constructor
  · intro s msg hex hlen hid hmcu hst hcmd h4 h5 h6 hv
    unfold handleCanMsg handleInit
    rcases hv with hv | hv <;>
      simp [hex, hlen, hid, hmcu, hst, hcmd, h4, h5, h6, hv, BOOTLOADER_CMD_VERSION]
  · intro s msg hp
    have hping : (handleCanMsg s msg).1.pingActive = false := by
      unfold handleCanMsg
      split
      · exact hp
      · split
        · exact hp
        · split
          · exact hp
          · split
            · exact hp
            · split
              · exact handleInit_pingFalse s msg.data hp
              · split
                · exact handleFlashing_pingFalse s msg.data hp
                · split
                  · exact handleReading_pingFalse s msg.data hp
                  · exact hp
    exact ⟨hping, by simp [pingTick, hping]⟩

/-- Witness for C9 amended: with the pinger already canceled, handling
a FLASH_READY in Flashing keeps it canceled and the next tick emits
nothing. -/
theorem c9_witness :
    (handleCanMsg c9wState c9Frame).1.pingActive = false ∧
    pingTick (handleCanMsg c9wState c9Frame).1 = [] :=
  c9_pinger_cancellation.2 c9wState c9Frame (by decide)

end McpFlash
